import Mathlib

/-!
Verification of the template-repository management command
(dev/src/command/connection/ManageTemplateReposCmd.ts).

The development shallowly embeds the command's logic:
the module-level singleton webview panel and its lifecycle,
the webview message dispatch with its error handling, the
input prompts, and the repository-URL validation. External
collaborators (the backend HTTP client, the user's answers to
input boxes) are supplied as explicit outcome environments, and
all observable effects (backend calls, displayed document,
notifications, log entries) are recorded in an explicit world state.
-/

namespace CodewindManageTemplateRepos

/-- Template repository data as provided by the backend
(interface IRawTemplateRepo in the source). The field named
protected in the source is not a legal Lean field name and is
called isProtected here. -/
structure IRawTemplateRepo where
  url : String
  name : String
  description : String
  enabled : Bool
  isProtected : Bool
deriving DecidableEq

/- Wire strings of enum ManageReposWVMessages in the source. -/
namespace ManageReposWVMessages

def ADD_NEW : String := "add-new"

def DELETE : String := "delete"

def HELP : String := "help"

def REFRESH : String := "refresh"

def ENABLE_DISABLE : String := "enableOrDisable"

end ManageReposWVMessages

/-- One entry of the repos field of an enablement event. -/
structure RepoEnablement where
  repoID : String
  enable : Bool
deriving DecidableEq

/-- Data field of the ENABLE_DISABLE event (interface IRepoEnablementEvent). -/
structure IRepoEnablementEvent where
  repos : List RepoEnablement
deriving DecidableEq

/- ### JS string primitives, modelled on character lists -/

/-- Model of String.prototype.trim of JS: remove whitespace from both
ends of the string. -/
def jsTrim (s : String) : String :=
  String.mk (((s.toList.dropWhile Char.isWhitespace).reverse.dropWhile
    Char.isWhitespace).reverse)

/-- Model of String.prototype.startsWith of JS. -/
def jsStartsWith (s pat : String) : Bool :=
  s.toList.take pat.toList.length == pat.toList

/-- Substring test, modelling String.prototype.includes of JS. -/
def strContains (s pat : String) : Bool :=
  let sl := s.toList
  let pl := pat.toList
  (List.range (sl.length + 1)).any (fun i => (sl.drop i).take pl.length == pl)

/- ### Input validation (validateRepoInput, getRawLinkMsg) -/

/-- Parsed URL record: the fields of the WHATWG URL object the validator
reads. As in Node, protocol carries the trailing colon. -/
structure URLRecord where
  protocol : String
  host : String
  pathname : String
deriving DecidableEq

/-- Characters allowed in a URL scheme after the initial letter. -/
def isSchemeChar (c : Char) : Bool :=
  c.isAlpha || c.isDigit || c == '+' || c == '-' || c == '.'

/-- Model of the WHATWG URL constructor of Node's url module (an external
library, not repository code), restricted to authority-form inputs of shape
scheme://host/path. The constructor throws on inputs with no scheme
(modelled as none); for authority-form inputs it lowercases the scheme and
exposes it as protocol with a trailing colon, the authority up to the first
slash, question mark or hash as host, and the rest of the path as pathname,
exactly as Node does on the inputs this validator distinguishes. -/
def parseURL (input : String) : Option URLRecord :=
  let s := (jsTrim input).toList
  let scheme := s.takeWhile (fun c => c != ':')
  match s.drop scheme.length with
  | ':' :: afterColon =>
    if scheme.isEmpty then none
    else if !(scheme.all isSchemeChar) then none
    else if !((scheme.headD 'a').isAlpha) then none
    else
      match afterColon with
      | '/' :: '/' :: r =>
        let host := r.takeWhile (fun c => c != '/' && c != '?' && c != '#')
        let afterHost := r.drop host.length
        let path := afterHost.takeWhile (fun c => c != '?' && c != '#')
        some ⟨String.mk (scheme.map Char.toLower) ++ ":",
              String.mk host, String.mk path⟩
      | _ => none
  | _ => none

/-- The generic rejection message of validateRepoInput. -/
def genericUrlMsg : String := "The repository URL must be a valid http(s) URL."

/-- getRawLinkMsg from the source. -/
def getRawLinkMsg (provider : String) : String :=
  "For " ++ provider ++ " URLs, you must use the raw link."

/-- validateRepoInput from the source: none means the input is valid,
some msg is the rejection message shown at the prompt. -/
def validateRepoInput (input : String) : Option String :=
  match parseURL input with
  | none => some genericUrlMsg
  | some asUrl =>
    if asUrl.host == "" || !(jsStartsWith asUrl.protocol "http") then
      some genericUrlMsg
    else if strContains asUrl.host "github" && !(strContains asUrl.host "raw") then
      some (getRawLinkMsg "GitHub")
    else if strContains asUrl.host "bitbucket" && !(strContains asUrl.pathname "raw") then
      some (getRawLinkMsg "Bitbucket")
    else if strContains asUrl.host "gitlab" && !(strContains asUrl.pathname "raw") then
      some (getRawLinkMsg "GitLab")
    else
      none

/-- Acceptance condition actually enforced by the first check of
validateRepoInput: the input parses, has a non-empty host, and its
protocol starts with the four characters http. -/
def urlOkB (input : String) : Bool :=
  match parseURL input with
  | none => false
  | some u => u.host != "" && jsStartsWith u.protocol "http"

/- ### Panel lifecycle (manageTemplateReposCmd, onDidDispose) -/

/-- Process-wide state of the panel lifecycle: the module-level
manageReposPage reference (a panel identifier when a page is open),
a counter supplying identifiers for freshly created panels, and the
host-side list of live (created and not yet disposed) panels. -/
structure WorldState where
  manageReposPage : Option Nat
  nextPanelId : Nat
  livePanels : List Nat
deriving DecidableEq

/-- Initial process state: no page open, no live panel. -/
def initialState : WorldState := ⟨none, 0, []⟩

/-- Observable outcome of one invocation of the open command. -/
structure CmdResult where
  state : WorldState
  createdNew : Bool
  revealed : Option Nat
deriving DecidableEq

/-- manageTemplateReposCmd from the source: if manageReposPage is set,
reveal the existing page and return; otherwise create a fresh panel,
store it in manageReposPage, register the disposal handler and reveal it. -/
def manageTemplateReposCmd (w : WorldState) : CmdResult :=
  match w.manageReposPage with
  | some p => ⟨w, false, some p⟩
  | none =>
    let pid := w.nextPanelId
    ⟨⟨some pid, pid + 1, pid :: w.livePanels⟩, true, some pid⟩

/-- Host delivery of the disposal event of panel pid: the host removes
the panel from its live set and runs the onDidDispose handler registered
at creation, which clears the module-level manageReposPage reference.
The host only disposes panels that are live. -/
def disposePanel (pid : Nat) (w : WorldState) : WorldState :=
  if pid ∈ w.livePanels then
    ⟨none, w.nextPanelId, w.livePanels.erase pid⟩
  else w

/-- Events the host delivers serially to the lifecycle state. -/
inductive HostEvent
  | openCommand
  | disposeEvent (pid : Nat)
deriving DecidableEq

/-- One host event applied to the lifecycle state. -/
def stepEvent (w : WorldState) : HostEvent → WorldState
  | .openCommand => (manageTemplateReposCmd w).state
  | .disposeEvent pid => disposePanel pid w

/-- The lifecycle state after a sequence of host events from startup. -/
def runEvents (evs : List HostEvent) : WorldState :=
  evs.foldl stepEvent initialState

/- ### Message dispatch (refreshPage, handleWebviewMessage, prompts) -/

/-- Outcome of an awaited call that can throw: either a value or a
thrown error, carrying its message. -/
inductive CallResult (α : Type)
  | ok (a : α)
  | error (e : String)
deriving DecidableEq

/-- One backend HTTP operation performed through Requester, recorded in
the order the calls are issued. -/
inductive BackendCall
  | enableTemplateRepos (ev : IRepoEnablementEvent)
  | addTemplateRepo (url description : String)
  | removeTemplateRepo (url : String)
  | fetchList
deriving DecidableEq

/-- Environment of one message-handling turn: the outcomes the external
collaborators (backend, user input boxes) would deliver to the awaited
calls, should the handler issue them. -/
structure Env where
  enableResult : CallResult Unit
  addResult : CallResult Unit
  removeResult : CallResult Unit
  fetchResult : CallResult (List IRawTemplateRepo)
  promptUrl : Option String
  promptDesc : Option String
deriving DecidableEq

/-- Observable world of the panel session: the html currently displayed
by the webview, the error and information notifications shown, the log
entries written, and the trace of backend calls issued. -/
structure UIWorld where
  displayedHtml : Option String
  errorMessages : List String
  infoMessages : List String
  logs : List String
  backendCalls : List BackendCall
deriving DecidableEq

/-- Modelled from the spec: generateManageReposHtml of
ManageTemplateReposPage.ts is not part of the included source; the spec
specifies the View Renderer only as a pure function of the repository
list. It is modelled as a canonical serialization of that list. -/
def generateManageReposHtml (repos : List IRawTemplateRepo) : String :=
  String.intercalate ";" (repos.map (fun r => r.url ++ "|" ++ r.name))

/-- refreshPage from the source: if no page exists, log the
inconsistency and return; otherwise fetch the repository list from the
backend (a call that may throw — the thrown error propagates to the
caller), render it and replace the displayed html. The debug html dump
gated by the development environment variable is out of scope. -/
def refreshPage (env : Env) (manageReposPageRef : Option Nat) (w : UIWorld) :
    UIWorld × CallResult Unit :=
  match manageReposPageRef with
  | none =>
    ({ w with logs :=
        w.logs ++ ["Refreshing manage repos page but it doesn't exist"] },
     CallResult.ok ())
  | some _ =>
    let w1 := { w with backendCalls := w.backendCalls ++ [BackendCall.fetchList] }
    match env.fetchResult with
    | .error e => (w1, CallResult.error e)
    | .ok repos =>
      ({ w1 with displayedHtml := some (generateManageReposHtml repos) },
       CallResult.ok ())

/-- Result of promptForNewRepo in the submitted case. -/
structure NewRepoInfo where
  repoUrl : String
  description : String
deriving DecidableEq

/-- promptForNewRepo from the source: show the URL input box (a falsy
answer — cancellation or the empty string — aborts), trim the URL, show
the description input box (a falsy answer is replaced by the fixed
default), trim the description, and return both. -/
def promptForNewRepo (env : Env) : Option NewRepoInfo :=
  match env.promptUrl with
  | none => none
  | some u =>
    if u = "" then none
    else
      let repoUrl := jsTrim u
      let description :=
        match env.promptDesc with
        | none => "(No description)"
        | some d => if d = "" then "(No description)" else d
      some ⟨repoUrl, jsTrim description⟩

/-- Data payload of a webview message, one variant per payload shape the
handler casts to. -/
inductive WVData
  | noData
  | strData (s : String)
  | enablementData (ev : IRepoEnablementEvent)
deriving DecidableEq

/-- A webview message: a type string and an untyped data payload. -/
structure IWVMessage where
  type : String
  data : WVData
deriving DecidableEq

/-- The unchecked cast msg.data as IRepoEnablementEvent. The default
value is never reached for messages whose payload has the shape the
webview sends for this event type. -/
def WVData.asEnablement : WVData → IRepoEnablementEvent
  | .enablementData ev => ev
  | _ => ⟨[]⟩

/-- The unchecked cast msg.data as string. -/
def WVData.asString : WVData → String
  | .strData s => s
  | _ => ""

/-- Body of the try block of handleWebviewMessage from the source: the
switch on msg.type. Returns the world after the branch together with
ok, or the error thrown out of the branch (only a refreshPage fetch
failure escapes: the enable, add and remove failures are caught by the
inner try blocks, whose catch clauses for add and delete also absorb a
subsequent refresh failure). -/
def handleWebviewMessageBody (env : Env) (manageReposPageRef : Option Nat)
    (msg : IWVMessage) (w : UIWorld) : UIWorld × CallResult Unit :=
  if msg.type = ManageReposWVMessages.ENABLE_DISABLE then
    let enablement := msg.data.asEnablement
    let w1 := { w with
      logs := w.logs ++ ["Enable/Disable repos:"],
      backendCalls := w.backendCalls ++
        [BackendCall.enableTemplateRepos enablement] }
    match env.enableResult with
    | .ok _ => (w1, CallResult.ok ())
    | .error _ => refreshPage env manageReposPageRef w1
  else if msg.type = ManageReposWVMessages.ADD_NEW then
    let w1 := { w with logs := w.logs ++ ["Adding new repo"] }
    match promptForNewRepo env with
    | none => (w1, CallResult.ok ())
    | some repoInfo =>
      let w2 := { w1 with backendCalls := w1.backendCalls ++
        [BackendCall.addTemplateRepo repoInfo.repoUrl repoInfo.description] }
      match env.addResult with
      | .error e =>
        ({ w2 with
            errorMessages := w2.errorMessages ++
              ["Error adding new template repository: " ++ e],
            logs := w2.logs ++ ["Error adding new template repo"] },
         CallResult.ok ())
      | .ok _ =>
        match refreshPage env manageReposPageRef w2 with
        | (w3, .ok _) => (w3, CallResult.ok ())
        | (w3, .error e) =>
          ({ w3 with
              errorMessages := w3.errorMessages ++
                ["Error adding new template repository: " ++ e],
              logs := w3.logs ++ ["Error adding new template repo"] },
           CallResult.ok ())
  else if msg.type = ManageReposWVMessages.DELETE then
    let repoUrl := msg.data.asString
    let w1 := { w with
      logs := w.logs ++ ["Delete repo " ++ repoUrl],
      backendCalls := w.backendCalls ++
        [BackendCall.removeTemplateRepo repoUrl] }
    match env.removeResult with
    | .error e =>
      ({ w1 with
          errorMessages := w1.errorMessages ++
            ["Error deleting template repository " ++ repoUrl ++ ": " ++ e],
          logs := w1.logs ++ ["Error removing template repo " ++ repoUrl] },
       CallResult.ok ())
    | .ok _ =>
      match refreshPage env manageReposPageRef w1 with
      | (w2, .ok _) => (w2, CallResult.ok ())
      | (w2, .error e) =>
        ({ w2 with
            errorMessages := w2.errorMessages ++
              ["Error deleting template repository " ++ repoUrl ++ ": " ++ e],
            logs := w2.logs ++ ["Error removing template repo " ++ repoUrl] },
         CallResult.ok ())
  else if msg.type = ManageReposWVMessages.HELP then
    ({ w with infoMessages := w.infoMessages ++
        ["More information about this page, or open a webpage, probably"] },
     CallResult.ok ())
  else if msg.type = ManageReposWVMessages.REFRESH then
    refreshPage env manageReposPageRef w
  else
    ({ w with logs := w.logs ++
        ["Received unknown event from manage templates webview:"] },
     CallResult.ok ())

/-- The fixed log entries of the outer catch of handleWebviewMessage. -/
def outerCatchLogs : List String :=
  ["Error processing message from manage templates webview", "Message was"]

/-- handleWebviewMessage from the source as the host sees it: the try
block body wrapped in the outer catch, which logs any error thrown out
of the switch. The result is always ok — no error escapes the handler. -/
def handleWebviewMessageResult (env : Env) (manageReposPageRef : Option Nat)
    (msg : IWVMessage) (w : UIWorld) : CallResult UIWorld :=
  match handleWebviewMessageBody env manageReposPageRef msg w with
  | (w1, .ok _) => CallResult.ok w1
  | (w1, .error _) =>
    CallResult.ok { w1 with logs := w1.logs ++ outerCatchLogs }

/-- The world after one message is handled. -/
def handleWebviewMessage (env : Env) (manageReposPageRef : Option Nat)
    (msg : IWVMessage) (w : UIWorld) : UIWorld :=
  match handleWebviewMessageResult env manageReposPageRef msg w with
  | .ok w1 => w1
  | .error _ => w

/- ### Theorems -/

/-- Lifecycle invariant: the host's live panels are exactly the panel the
module-level reference points to. -/
def LifecycleInv (w : WorldState) : Prop :=
  w.livePanels = w.manageReposPage.toList

lemma lifecycleInv_step (w : WorldState) (h : LifecycleInv w) (ev : HostEvent) :
    LifecycleInv (stepEvent w ev) := by
  cases ev with
  | openCommand =>
    cases hp : w.manageReposPage with
    | some p =>
      simpa [stepEvent, manageTemplateReposCmd, hp, LifecycleInv] using h
    | none =>
      unfold LifecycleInv at h
      rw [hp] at h
      simp only [Option.toList] at h
      simp [stepEvent, manageTemplateReposCmd, hp, LifecycleInv, h]
  | disposeEvent pid =>
    unfold LifecycleInv at h
    by_cases hmem : pid ∈ w.livePanels
    · cases hq : w.manageReposPage with
      | none =>
        rw [hq] at h
        simp only [Option.toList] at h
        rw [h] at hmem
        simp at hmem
      | some q =>
        rw [hq] at h
        simp only [Option.toList] at h
        have hpq : pid = q := by
          rw [h] at hmem
          simpa using hmem
        simp [stepEvent, disposePanel, hmem, LifecycleInv, h, hpq]
    · show (disposePanel pid w).livePanels =
        (disposePanel pid w).manageReposPage.toList
      unfold disposePanel
      rw [if_neg hmem]
      exact h

lemma lifecycleInv_foldl (evs : List HostEvent) :
    ∀ w, LifecycleInv w → LifecycleInv (evs.foldl stepEvent w) := by
  induction evs with
  | nil => intro w h; exact h
  | cons e es ih => intro w h; exact ih _ (lifecycleInv_step w h e)

lemma lifecycleInv_run (evs : List HostEvent) : LifecycleInv (runEvents evs) :=
  lifecycleInv_foldl evs initialState rfl

/-- C1: the panel session is a process-wide singleton. After any sequence
of host events, at most one panel is live; invoking the open command while
a page is live only reveals the existing panel and changes nothing; when no
page is live, the open command creates a fresh panel and stores it in the
singleton reference; and after the host delivers the disposal event for a
live panel (clearing the reference), the next invocation creates a fresh
session. -/
theorem c1_panel_singleton (evs : List HostEvent) :
    (runEvents evs).livePanels.length ≤ 1
  ∧ (∀ p, (runEvents evs).manageReposPage = some p →
      manageTemplateReposCmd (runEvents evs) = ⟨runEvents evs, false, some p⟩)
  ∧ ((runEvents evs).manageReposPage = none →
      (manageTemplateReposCmd (runEvents evs)).createdNew = true ∧
      (manageTemplateReposCmd (runEvents evs)).state.manageReposPage =
        some (runEvents evs).nextPanelId)
  ∧ (∀ pid, pid ∈ (runEvents evs).livePanels →
      (manageTemplateReposCmd (disposePanel pid (runEvents evs))).createdNew
        = true) := by
  have hinv := lifecycleInv_run evs
  unfold LifecycleInv at hinv
  refine ⟨?_, ?_, ?_, ?_⟩
  · rw [hinv]
    cases (runEvents evs).manageReposPage <;> simp
  · intro p hp
    simp [manageTemplateReposCmd, hp]
  · intro hp
    simp [manageTemplateReposCmd, hp]
  · intro pid hmem
    simp [disposePanel, hmem, manageTemplateReposCmd]

/-- Witness for C1 at the concrete event sequence consisting of one open
command: the second open reuses the panel, and after disposal a fresh
panel is created. -/
theorem c1_panel_singleton_witness :
    manageTemplateReposCmd (runEvents [HostEvent.openCommand]) =
      ⟨runEvents [HostEvent.openCommand], false, some 0⟩
  ∧ (manageTemplateReposCmd
      (disposePanel 0 (runEvents [HostEvent.openCommand]))).createdNew = true :=
  ⟨(c1_panel_singleton [HostEvent.openCommand]).2.1 0 (by decide),
   (c1_panel_singleton [HostEvent.openCommand]).2.2.2 0 (by decide)⟩

/-- C9: invoking refreshPage while no panel session exists logs the
internal inconsistency and returns normally: no backend call is made, the
result is not an error, and nothing else changes. -/
theorem c9_refresh_without_session (env : Env) (w : UIWorld) :
    refreshPage env none w =
      ({ w with logs := w.logs ++
          ["Refreshing manage repos page but it doesn't exist"] },
       CallResult.ok ())
  ∧ (refreshPage env none w).1.backendCalls = w.backendCalls := by
  constructor <;> rfl

/-- C7: the raw githubusercontent URL is accepted, while the github.com
web URL is rejected with the GitHub-specific hint telling the user to use
the raw link. -/
theorem c7_github_raw_hint :
    validateRepoInput "https://raw.githubusercontent.com/org/repo/index.json"
      = none
  ∧ validateRepoInput "https://github.com/org/repo/index.json" =
      some (getRawLinkMsg "GitHub")
  ∧ strContains (getRawLinkMsg "GitHub") "raw link" = true := by
  decide

/-- Counterexample to C6 as stated: the input httpx://example.com/a is
accepted by validateRepoInput although its scheme httpx is neither http
nor https — the code only requires the protocol to start with the four
characters http. -/
theorem c6_counterexample :
    validateRepoInput "httpx://example.com/a" = none
  ∧ (parseURL "httpx://example.com/a").map URLRecord.protocol = some "httpx:"
  ∧ "httpx:" ≠ "http:" ∧ "httpx:" ≠ "https:" := by
  decide

lemma getRawLinkMsg_gitHub_ne : getRawLinkMsg "GitHub" ≠ genericUrlMsg := by
  decide

lemma getRawLinkMsg_bitbucket_ne : getRawLinkMsg "Bitbucket" ≠ genericUrlMsg := by
  decide

lemma getRawLinkMsg_gitLab_ne : getRawLinkMsg "GitLab" ≠ genericUrlMsg := by
  decide

lemma validate_genericMsg_iff (input : String) :
    validateRepoInput input = some genericUrlMsg ↔ urlOkB input = false := by
  unfold validateRepoInput urlOkB
  cases h : parseURL input with
  | none => simp
  | some u =>
    cases hh : (u.host == "") <;>
      cases hs : jsStartsWith u.protocol "http" <;>
        cases hg1 : strContains u.host "github" <;>
          cases hg2 : strContains u.host "raw" <;>
            cases hb1 : strContains u.host "bitbucket" <;>
              cases hb2 : strContains u.pathname "raw" <;>
                cases hl1 : strContains u.host "gitlab" <;>
                  simp_all [bne, getRawLinkMsg_gitHub_ne,
                    getRawLinkMsg_bitbucket_ne, getRawLinkMsg_gitLab_ne]

lemma validate_none_urlOk (input : String) :
    validateRepoInput input = none → urlOkB input = true := by
  unfold validateRepoInput urlOkB
  cases h : parseURL input with
  | none => simp
  | some u =>
    cases hh : (u.host == "") <;>
      cases hs : jsStartsWith u.protocol "http" <;>
        simp_all [bne]

/-- C6 (amended): validateRepoInput rejects with the generic http(s)
message exactly when the input fails to parse as an authority-form URL
with a non-empty host whose protocol starts with http — so schemes other
than http and https whose name starts with http are accepted as well; the
input not-a-url is rejected with the generic message; and every accepted
input parses with a non-empty host and a protocol starting with http. -/
theorem c6_validate_http_prefix_gate (input : String) :
    (validateRepoInput input = some genericUrlMsg ↔ urlOkB input = false)
  ∧ validateRepoInput "not-a-url" = some genericUrlMsg
  ∧ (validateRepoInput input = none → urlOkB input = true) :=
  ⟨validate_genericMsg_iff input, by decide, validate_none_urlOk input⟩

/-- Witness for C6 (amended) at a concrete accepted input. -/
theorem c6_validate_http_prefix_gate_witness :
    urlOkB "https://raw.githubusercontent.com/org/repo/index.json" = true :=
  (c6_validate_http_prefix_gate
    "https://raw.githubusercontent.com/org/repo/index.json").2.2 (by decide)

lemma jsTrim_noDescription : jsTrim "(No description)" = "(No description)" := by
  decide

/-- C2: when the backend enablement call of an enable-disable dispatch
fails, the handler performs a full refresh: the displayed html afterwards
equals the one an explicit refreshPage call against the backend at that
moment would produce, and the only backend calls issued are the single
batch enablement call followed by the list fetch of the refresh — no
per-item reconciliation. -/
theorem c2_enable_disable_failure_full_refresh (env : Env) (pid : Nat)
    (ev : IRepoEnablementEvent) (w : UIWorld) (e : String)
    (hfail : env.enableResult = CallResult.error e) :
    (handleWebviewMessage env (some pid)
        ⟨ManageReposWVMessages.ENABLE_DISABLE, WVData.enablementData ev⟩
        w).displayedHtml =
      (refreshPage env (some pid) w).1.displayedHtml
  ∧ (handleWebviewMessage env (some pid)
        ⟨ManageReposWVMessages.ENABLE_DISABLE, WVData.enablementData ev⟩
        w).backendCalls =
      w.backendCalls ++
        [BackendCall.enableTemplateRepos ev, BackendCall.fetchList] := by
  unfold handleWebviewMessage handleWebviewMessageResult handleWebviewMessageBody
  rw [hfail]
  cases hf : env.fetchResult with
  | ok repos => simp [refreshPage, hf, WVData.asEnablement]
  | error e2 => simp [refreshPage, hf, WVData.asEnablement]

/-- Witness for C2: a concrete failing enablement dispatch issues exactly
the enablement call and the refresh fetch. -/
theorem c2_enable_disable_failure_full_refresh_witness :
    (handleWebviewMessage
        ⟨CallResult.error "x", CallResult.ok (), CallResult.ok (),
         CallResult.ok [], none, none⟩ (some 0)
        ⟨ManageReposWVMessages.ENABLE_DISABLE,
         WVData.enablementData ⟨[⟨"a", false⟩]⟩⟩
        ⟨none, [], [], [], []⟩).backendCalls =
      [BackendCall.enableTemplateRepos ⟨[⟨"a", false⟩]⟩,
       BackendCall.fetchList] :=
  (c2_enable_disable_failure_full_refresh
    ⟨CallResult.error "x", CallResult.ok (), CallResult.ok (),
     CallResult.ok [], none, none⟩ 0 ⟨[⟨"a", false⟩]⟩
    ⟨none, [], [], [], []⟩ "x" rfl).2

/-- C3: a delete dispatch calls the remove operation with the event's
URL; on success it refreshes, so the displayed html is the rendering of a
fresh backend fetch; on failure it surfaces the error notification, makes
no further backend call, and leaves the displayed html unchanged. -/
theorem c3_delete_refresh_or_report (env : Env) (pid : Nat) (url : String)
    (w : UIWorld) :
    (env.removeResult = CallResult.ok () →
      ∀ repos, env.fetchResult = CallResult.ok repos →
        (handleWebviewMessage env (some pid)
            ⟨ManageReposWVMessages.DELETE, WVData.strData url⟩ w).backendCalls =
          w.backendCalls ++
            [BackendCall.removeTemplateRepo url, BackendCall.fetchList]
      ∧ (handleWebviewMessage env (some pid)
            ⟨ManageReposWVMessages.DELETE, WVData.strData url⟩ w).displayedHtml =
          some (generateManageReposHtml repos))
  ∧ (∀ e, env.removeResult = CallResult.error e →
      (handleWebviewMessage env (some pid)
          ⟨ManageReposWVMessages.DELETE, WVData.strData url⟩ w).backendCalls =
        w.backendCalls ++ [BackendCall.removeTemplateRepo url]
    ∧ (handleWebviewMessage env (some pid)
          ⟨ManageReposWVMessages.DELETE, WVData.strData url⟩ w).displayedHtml =
        w.displayedHtml
    ∧ (handleWebviewMessage env (some pid)
          ⟨ManageReposWVMessages.DELETE, WVData.strData url⟩ w).errorMessages =
        w.errorMessages ++
          ["Error deleting template repository " ++ url ++ ": " ++ e]) := by
  constructor
  · intro hok repos hf
    unfold handleWebviewMessage handleWebviewMessageResult handleWebviewMessageBody
    rw [hok]
    simp [refreshPage, hf, WVData.asString, ManageReposWVMessages.DELETE,
      ManageReposWVMessages.ENABLE_DISABLE, ManageReposWVMessages.ADD_NEW]
  · intro e he
    unfold handleWebviewMessage handleWebviewMessageResult handleWebviewMessageBody
    rw [he]
    simp [WVData.asString, ManageReposWVMessages.DELETE,
      ManageReposWVMessages.ENABLE_DISABLE, ManageReposWVMessages.ADD_NEW]

/-- Witness for C3: a concrete successful delete issues the remove call
and the refresh fetch. -/
theorem c3_delete_refresh_or_report_witness :
    (handleWebviewMessage
        ⟨CallResult.ok (), CallResult.ok (), CallResult.ok (),
         CallResult.ok [], none, none⟩ (some 0)
        ⟨ManageReposWVMessages.DELETE, WVData.strData "https://x/index.json"⟩
        ⟨none, [], [], [], []⟩).backendCalls =
      [BackendCall.removeTemplateRepo "https://x/index.json",
       BackendCall.fetchList] :=
  ((c3_delete_refresh_or_report
      ⟨CallResult.ok (), CallResult.ok (), CallResult.ok (),
       CallResult.ok [], none, none⟩ 0 "https://x/index.json"
      ⟨none, [], [], [], []⟩).1 rfl [] rfl).1

/-- C4: an add-new dispatch prompts for a URL and a description; a
cancelled (falsy) URL prompt ends the dispatch with no backend call, no
display change and no error notification; a cancelled description prompt
substitutes the fixed default; on submission the add operation is called
with the prompted URL and description, followed by the refresh fetch on
success, while on failure the error notification is shown and no refresh
fetch occurs. -/
theorem c4_add_new_prompt_flow (env : Env) (pid : Nat) (w : UIWorld) :
    ((env.promptUrl = none ∨ env.promptUrl = some "") →
        (handleWebviewMessage env (some pid)
            ⟨ManageReposWVMessages.ADD_NEW, WVData.noData⟩ w).backendCalls =
          w.backendCalls
      ∧ (handleWebviewMessage env (some pid)
            ⟨ManageReposWVMessages.ADD_NEW, WVData.noData⟩ w).displayedHtml =
          w.displayedHtml
      ∧ (handleWebviewMessage env (some pid)
            ⟨ManageReposWVMessages.ADD_NEW, WVData.noData⟩ w).errorMessages =
          w.errorMessages)
  ∧ (∀ u, env.promptUrl = some u → u ≠ "" → env.promptDesc = none →
      promptForNewRepo env = some ⟨jsTrim u, "(No description)"⟩)
  ∧ (∀ info, promptForNewRepo env = some info →
      (env.addResult = CallResult.ok () →
        ∀ repos, env.fetchResult = CallResult.ok repos →
          (handleWebviewMessage env (some pid)
              ⟨ManageReposWVMessages.ADD_NEW, WVData.noData⟩ w).backendCalls =
            w.backendCalls ++
              [BackendCall.addTemplateRepo info.repoUrl info.description,
               BackendCall.fetchList]
        ∧ (handleWebviewMessage env (some pid)
              ⟨ManageReposWVMessages.ADD_NEW, WVData.noData⟩ w).displayedHtml =
            some (generateManageReposHtml repos))
    ∧ (∀ e, env.addResult = CallResult.error e →
        (handleWebviewMessage env (some pid)
            ⟨ManageReposWVMessages.ADD_NEW, WVData.noData⟩ w).backendCalls =
          w.backendCalls ++
            [BackendCall.addTemplateRepo info.repoUrl info.description]
      ∧ (handleWebviewMessage env (some pid)
            ⟨ManageReposWVMessages.ADD_NEW, WVData.noData⟩ w).displayedHtml =
          w.displayedHtml
      ∧ (handleWebviewMessage env (some pid)
            ⟨ManageReposWVMessages.ADD_NEW, WVData.noData⟩ w).errorMessages =
          w.errorMessages ++
            ["Error adding new template repository: " ++ e])) := by
  refine ⟨?_, ?_, ?_⟩
  · intro hd
    have hnone : promptForNewRepo env = none := by
      rcases hd with hd | hd <;> simp [promptForNewRepo, hd]
    unfold handleWebviewMessage handleWebviewMessageResult handleWebviewMessageBody
    rw [hnone]
    simp [ManageReposWVMessages.ADD_NEW, ManageReposWVMessages.ENABLE_DISABLE]
  · intro u hu hne hd
    simp [promptForNewRepo, hu, hne, hd, jsTrim_noDescription]
  · intro info hinfo
    constructor
    · intro hok repos hf
      unfold handleWebviewMessage handleWebviewMessageResult
        handleWebviewMessageBody
      rw [hinfo, hok]
      simp [refreshPage, hf, ManageReposWVMessages.ADD_NEW,
        ManageReposWVMessages.ENABLE_DISABLE]
    · intro e he
      unfold handleWebviewMessage handleWebviewMessageResult
        handleWebviewMessageBody
      rw [hinfo, he]
      simp [ManageReposWVMessages.ADD_NEW, ManageReposWVMessages.ENABLE_DISABLE]

/-- Witness for C4: a concrete submitted add issues the add call with the
prompted values and then the refresh fetch. -/
theorem c4_add_new_prompt_flow_witness :
    (handleWebviewMessage
        ⟨CallResult.ok (), CallResult.ok (), CallResult.ok (),
         CallResult.ok [], some "https://x/index.json", some "d"⟩ (some 0)
        ⟨ManageReposWVMessages.ADD_NEW, WVData.noData⟩
        ⟨none, [], [], [], []⟩).backendCalls =
      [BackendCall.addTemplateRepo "https://x/index.json" "d",
       BackendCall.fetchList] :=
  (((c4_add_new_prompt_flow
       ⟨CallResult.ok (), CallResult.ok (), CallResult.ok (),
        CallResult.ok [], some "https://x/index.json", some "d"⟩ 0
       ⟨none, [], [], [], []⟩).2.2 ⟨"https://x/index.json", "d"⟩
     (by decide)).1 rfl [] rfl).1

lemma refreshPage_error_fetch (env : Env) (p : Option Nat) (w : UIWorld)
    (e : String) :
    (refreshPage env p w).2 = CallResult.error e →
      env.fetchResult = CallResult.error e := by
  unfold refreshPage
  cases p with
  | none => simp
  | some pid =>
    cases hf : env.fetchResult with
    | ok repos => simp
    | error e2 => simp

lemma body_error_fetch (env : Env) (page : Option Nat) (msg : IWVMessage)
    (w : UIWorld) (e : String) :
    (handleWebviewMessageBody env page msg w).2 = CallResult.error e →
      env.fetchResult = CallResult.error e := by
  unfold handleWebviewMessageBody
  split
  · cases env.enableResult with
    | ok a => simp
    | error e2 =>
      intro h
      exact refreshPage_error_fetch env _ _ e h
  · split
    · split
      · simp
      · split
        · simp
        · dsimp only
          split <;> simp
    · split
      · split
        · simp
        · dsimp only
          split <;> simp
      · split
        · simp
        · split
          · intro h
            exact refreshPage_error_fetch env _ _ e h
          · simp

/-- C5: no failure escapes the message handler. The handler's outcome as
the host sees it is always a normally returned world (never a thrown
error); and whenever the dispatch body does throw, the escaping error can
only be a fetch failure of the triggered refresh, and the outer catch
appends its report to the logs. -/
theorem c5_failures_never_escape (env : Env) (page : Option Nat)
    (msg : IWVMessage) (w : UIWorld) :
    handleWebviewMessageResult env page msg w =
      CallResult.ok (handleWebviewMessage env page msg w)
  ∧ (∀ e, (handleWebviewMessageBody env page msg w).2 = CallResult.error e →
      env.fetchResult = CallResult.error e
    ∧ (handleWebviewMessage env page msg w).logs =
        (handleWebviewMessageBody env page msg w).1.logs ++ outerCatchLogs) := by
  constructor
  · cases hb : handleWebviewMessageBody env page msg w with
    | mk w1 r =>
      cases r with
      | ok a => simp [handleWebviewMessage, handleWebviewMessageResult, hb]
      | error e => simp [handleWebviewMessage, handleWebviewMessageResult, hb]
  · intro e he
    refine ⟨body_error_fetch env page msg w e he, ?_⟩
    cases hb : handleWebviewMessageBody env page msg w with
    | mk w1 r =>
      rw [hb] at he
      cases r with
      | ok a => simp at he
      | error e2 =>
        simp [handleWebviewMessage, handleWebviewMessageResult, hb]

/-- Witness for C5: a concrete refresh dispatch whose backend fetch
throws is caught and reported in the logs. -/
theorem c5_failures_never_escape_witness :
    (handleWebviewMessage
        ⟨CallResult.ok (), CallResult.ok (), CallResult.ok (),
         CallResult.error "netfail", none, none⟩ (some 0)
        ⟨ManageReposWVMessages.REFRESH, WVData.noData⟩
        ⟨none, [], [], [], []⟩).logs =
      (handleWebviewMessageBody
        ⟨CallResult.ok (), CallResult.ok (), CallResult.ok (),
         CallResult.error "netfail", none, none⟩ (some 0)
        ⟨ManageReposWVMessages.REFRESH, WVData.noData⟩
        ⟨none, [], [], [], []⟩).1.logs ++ outerCatchLogs :=
  ((c5_failures_never_escape
      ⟨CallResult.ok (), CallResult.ok (), CallResult.ok (),
       CallResult.error "netfail", none, none⟩ (some 0)
      ⟨ManageReposWVMessages.REFRESH, WVData.noData⟩
      ⟨none, [], [], [], []⟩).2 "netfail" (by decide)).2

/-- C8: a message whose type is none of the recognized event types is
only logged: the resulting world is the old one with the unknown-event
log entry appended, so in particular no backend call of any kind and no
refresh is performed. -/
theorem c8_unknown_message_noop (env : Env) (page : Option Nat)
    (msg : IWVMessage) (w : UIWorld)
    (h1 : msg.type ≠ ManageReposWVMessages.ENABLE_DISABLE)
    (h2 : msg.type ≠ ManageReposWVMessages.ADD_NEW)
    (h3 : msg.type ≠ ManageReposWVMessages.DELETE)
    (h4 : msg.type ≠ ManageReposWVMessages.HELP)
    (h5 : msg.type ≠ ManageReposWVMessages.REFRESH) :
    handleWebviewMessage env page msg w =
      { w with logs := w.logs ++
          ["Received unknown event from manage templates webview:"] }
  ∧ (handleWebviewMessage env page msg w).backendCalls = w.backendCalls := by
  unfold handleWebviewMessage handleWebviewMessageResult handleWebviewMessageBody
  rw [if_neg h1, if_neg h2, if_neg h3, if_neg h4, if_neg h5]
  exact ⟨rfl, rfl⟩

/-- Witness for C8 at a concrete unrecognized message type. -/
theorem c8_unknown_message_noop_witness :
    (handleWebviewMessage
        ⟨CallResult.ok (), CallResult.ok (), CallResult.ok (),
         CallResult.ok [], none, none⟩ none
        ⟨"bogus", WVData.noData⟩ ⟨none, [], [], [], []⟩).backendCalls = [] :=
  (c8_unknown_message_noop
    ⟨CallResult.ok (), CallResult.ok (), CallResult.ok (),
     CallResult.ok [], none, none⟩ none ⟨"bogus", WVData.noData⟩
    ⟨none, [], [], [], []⟩ (by decide) (by decide) (by decide) (by decide)
    (by decide)).2

/-- C10: in promptForNewRepo, an empty description submission is treated
like cancelling the description step — whenever the description answer is
undefined or the empty string, the fixed default is returned — and the
returned URL and description are the trimmed forms of the inputs. -/
theorem c10_description_default_and_trim (env : Env) (u : String)
    (hu : env.promptUrl = some u) (hne : u ≠ "") :
    ((env.promptDesc = none ∨ env.promptDesc = some "") →
      promptForNewRepo env = some ⟨jsTrim u, "(No description)"⟩)
  ∧ (∀ d, env.promptDesc = some d → d ≠ "" →
      promptForNewRepo env = some ⟨jsTrim u, jsTrim d⟩) := by
  constructor
  · rintro (hd | hd) <;>
      simp [promptForNewRepo, hu, hne, hd, jsTrim_noDescription]
  · intro d hd hdne
    simp [promptForNewRepo, hu, hne, hd, hdne]

/-- Witness for C10: a concrete prompt with an empty description answer
substitutes the default, and the URL is trimmed. -/
theorem c10_description_default_and_trim_witness :
    promptForNewRepo
        ⟨CallResult.ok (), CallResult.ok (), CallResult.ok (),
         CallResult.ok [], some " https://x/index.json ", some ""⟩ =
      some ⟨jsTrim " https://x/index.json ", "(No description)"⟩ :=
  ((c10_description_default_and_trim
      ⟨CallResult.ok (), CallResult.ok (), CallResult.ok (),
       CallResult.ok [], some " https://x/index.json ", some ""⟩
      " https://x/index.json " rfl (by decide)).1 (Or.inr rfl))

end CodewindManageTemplateRepos
